import Mathlib

/-!
Verification of the token / locator-cache / stream-relay core of the
backend (Flask app under `backend/app`).  The Python code is shallowly
embedded: time is an explicit `Nat` of Unix seconds, the module-level
mutable cache dictionary is threaded as an association list, and the
external collaborators (yt-dlp extractor, Mongo document store, upstream
media host) are oracles passed as functions.  JWT signing (HS256) is
modelled by recording the signing secret in the token: the signature of a
token verifies under a secret iff the recorded secret equals it, and two
encoded tokens are equal iff their claim sets and secrets are equal —
matching the determinism of HS256/JSON encoding, where PyJWT truncates
`iat`/`exp` datetimes to whole seconds.
-/

namespace StreamCore

/-! ## Configuration (`backend/app/config.py`, default values) -/

def JWT_SECRET_KEY : String := "super-secret-jwt-key-change-in-production"

def JWT_ACCESS_TOKEN_EXPIRES : Nat := 15 * 60

def REFRESH_TOKEN_SECRET : String := "refresh-secret-key-change-in-production"

def REFRESH_TOKEN_EXPIRES : Nat := 7 * 24 * 60 * 60

def PLAYBACK_TOKEN_SECRET : String := "playback-secret-key-change-in-production"

def PLAYBACK_TOKEN_EXPIRES : Nat := 5 * 60

def INTERNAL_TOKEN_SECRET : String := "internal-token-secret-key"

def INTERNAL_TOKEN_EXPIRES : Nat := 60

/-! ## JWT model (`backend/app/utils/jwt_utils.py`) -/

/-- The claim set of a token.  `video_id` is present only on
playback/internal tokens (`none` models an absent claim, as read by
Python's `payload.get`). -/
structure JwtPayload where
  user_id : String
  video_id : Option String
  exp : Nat
  iat : Nat
  type : String
  deriving DecidableEq

/-- An encoded token: the claim set plus the secret it was signed with
(HS256 model; forging a signature is impossible in the model). -/
structure Token where
  payload : JwtPayload
  sig : String
  deriving DecidableEq

/-- `jwt.encode(payload, secret, algorithm='HS256')`. -/
def jwtEncode (p : JwtPayload) (secret : String) : Token := ⟨p, secret⟩

/-- `jwt.decode(token, secret, algorithms=['HS256'])` followed by the
`payload.get('type') != expected` check each `decode_*` function performs:
signature mismatch raises `InvalidTokenError` (→ `None`), `exp <= now`
raises `ExpiredSignatureError` (→ `None`), wrong `type` returns `None`. -/
def jwtDecodeTyped (secret expected : String) (now : Nat) (t : Token) : Option JwtPayload :=
  if t.sig = secret then
    if t.payload.exp ≤ now then none
    else if t.payload.type = expected then some t.payload else none
  else none

/-- `generate_access_token` (jwt_utils.py:7). -/
def generate_access_token (now : Nat) (user_id : String) : Token :=
  jwtEncode { user_id := user_id, video_id := none,
              exp := now + JWT_ACCESS_TOKEN_EXPIRES, iat := now,
              type := "access" } JWT_SECRET_KEY

/-- `decode_access_token` (jwt_utils.py:17). -/
def decode_access_token (now : Nat) (t : Token) : Option JwtPayload :=
  jwtDecodeTyped JWT_SECRET_KEY "access" now t

/-- `generate_refresh_token` (jwt_utils.py:30). -/
def generate_refresh_token (now : Nat) (user_id : String) : Token :=
  jwtEncode { user_id := user_id, video_id := none,
              exp := now + REFRESH_TOKEN_EXPIRES, iat := now,
              type := "refresh" } REFRESH_TOKEN_SECRET

/-- `decode_refresh_token` (jwt_utils.py:44). -/
def decode_refresh_token (now : Nat) (t : Token) : Option JwtPayload :=
  jwtDecodeTyped REFRESH_TOKEN_SECRET "refresh" now t

/-- `generate_playback_token` (jwt_utils.py:80). -/
def generate_playback_token (now : Nat) (video_id user_id : String) : Token :=
  jwtEncode { user_id := user_id, video_id := some video_id,
              exp := now + PLAYBACK_TOKEN_EXPIRES, iat := now,
              type := "playback" } PLAYBACK_TOKEN_SECRET

/-- `decode_playback_token` (jwt_utils.py:94). -/
def decode_playback_token (now : Nat) (t : Token) : Option JwtPayload :=
  jwtDecodeTyped PLAYBACK_TOKEN_SECRET "playback" now t

/-- `generate_internal_token` (jwt_utils.py:107). -/
def generate_internal_token (now : Nat) (video_id user_id : String) : Token :=
  jwtEncode { user_id := user_id, video_id := some video_id,
              exp := now + INTERNAL_TOKEN_EXPIRES, iat := now,
              type := "internal" } INTERNAL_TOKEN_SECRET

/-- `decode_internal_token` (jwt_utils.py:121). -/
def decode_internal_token (now : Nat) (t : Token) : Option JwtPayload :=
  jwtDecodeTyped INTERNAL_TOKEN_SECRET "internal" now t

/-! ## The four tiers, gathered for tier-indexed statements -/

inductive Tier where
  | refresh
  | access
  | playback
  | internal
  deriving DecidableEq

/-- Dispatch to the tier's `generate_*` function.  The `vid` argument is
only consumed by the playback/internal tiers. -/
def issueToken : Tier → Nat → String → String → Token
  | .refresh, now, u, _ => generate_refresh_token now u
  | .access, now, u, _ => generate_access_token now u
  | .playback, now, u, v => generate_playback_token now v u
  | .internal, now, u, v => generate_internal_token now v u

/-- Dispatch to the tier's `decode_*` function. -/
def verifyToken : Tier → Nat → Token → Option JwtPayload
  | .refresh, now, t => decode_refresh_token now t
  | .access, now, t => decode_access_token now t
  | .playback, now, t => decode_playback_token now t
  | .internal, now, t => decode_internal_token now t

/-- The fixed lifetime of each tier (config.py). -/
def tierLifetime : Tier → Nat
  | .refresh => REFRESH_TOKEN_EXPIRES
  | .access => JWT_ACCESS_TOKEN_EXPIRES
  | .playback => PLAYBACK_TOKEN_EXPIRES
  | .internal => INTERNAL_TOKEN_EXPIRES

/-! ## Locator cache (`backend/app/routes/video.py`, lines 28-45)

The module-level dict `_url_cache : youtube_id → (url, timestamp)` is
modelled as an association list with unique keys; dict deletion and
overwrite are modelled by filtering the key out. -/

abbrev Cache := List (String × String × Nat)

def CACHE_DURATION : Nat := 300

/-- `del _url_cache[youtube_id]` / overwrite: drop the key's entry. -/
def cacheDel (cache : Cache) (youtube_id : String) : Cache :=
  cache.filter (fun e => e.1 != youtube_id)

/-- `get_cached_url` (video.py:33): returns the cached URL if present and
younger than `CACHE_DURATION`; a stale entry is deleted and `None`
returned.  Also returns the cache state after the read. -/
def get_cached_url (now : Nat) (cache : Cache) (youtube_id : String) :
    Option String × Cache :=
  match cache.lookup youtube_id with
  | some (url, timestamp) =>
      if now - timestamp < CACHE_DURATION then (some url, cache)
      else (none, cacheDel cache youtube_id)
  | none => (none, cache)

/-- `cache_url` (video.py:43): `_url_cache[youtube_id] = (url, time.time())`. -/
def cache_url (now : Nat) (cache : Cache) (youtube_id url : String) : Cache :=
  (youtube_id, url, now) :: cacheDel cache youtube_id

/-! ## yt-dlp extraction (`video.py`, lines 52-102) -/

/-- Python truthiness of an optional string (`if video_url:`):
`None` and `""` are falsy. -/
def optTruthy : Option String → Bool
  | some s => s != ""
  | none => false

/-- Python's `str.startswith` (structurally recursive model). -/
def strStartsWith (s pre : String) : Bool :=
  pre.toList.isPrefixOf s.toList

/-- Python's `str.lower` (character-wise). -/
def strToLower (s : String) : String :=
  ⟨s.toList.map Char.toLower⟩

/-- Contiguous-sublist test on character lists. -/
def listIsInfix (needle : List Char) : List Char → Bool
  | [] => needle.isEmpty
  | c :: t => needle.isPrefixOf (c :: t) || listIsInfix needle t

/-- Python's `needle in hay` substring containment. -/
def strContainsSub (hay needle : String) : Bool :=
  listIsInfix needle.toList hay.toList

/-- One entry of yt-dlp's `info['formats']` list, restricted to the keys
the code reads.  `none` models an absent key (Python `f.get`). -/
structure VidFormat where
  ext : String
  url : Option String
  vcodec : Option String
  deriving DecidableEq

/-- The per-format filter of the fallback loop (video.py:85-88):
`f.get('ext') == 'mp4' and f.get('url') and
f.get('vcodec','').startswith('avc') and
'manifest' not in f.get('url','').lower()`. -/
def formatOk (f : VidFormat) : Bool :=
  f.ext == "mp4" &&
  optTruthy f.url &&
  strStartsWith (f.vcodec.getD "") "avc" &&
  !(strContainsSub (strToLower (f.url.getD "")) "manifest")

/-- The result of `ydl.extract_info`, restricted to the keys the code
reads: the top-level `url` and the `formats` list. -/
structure ExtractInfo where
  url : Option String
  formats : List VidFormat
  deriving DecidableEq

/-- The body of `extract_video_url` after the cache check (video.py:75-102):
call the extractor (oracle; `none` models a raised exception), fall back
to scanning `reversed(formats)` for the first `formatOk` entry when the
top-level `url` is falsy, and cache the result iff it is truthy.  The
`Nat` component counts extractor invocations (here always 1). -/
def extract_fresh (extractor : String → Option ExtractInfo) (now : Nat)
    (cache : Cache) (youtube_id : String) : Option String × Cache × Nat :=
  match extractor youtube_id with
  | none => (none, cache, 1)
  | some info =>
    match (if optTruthy info.url then info.url
           else (info.formats.reverse.find? formatOk).bind (fun f => f.url)) with
    | some v =>
        if v != "" then (some v, cache_url now cache youtube_id v, 1)
        else (none, cache, 1)
    | none => (none, cache, 1)

/-- `extract_video_url` (video.py:52), instrumented with the number of
extractor invocations: serve from the cache when the cached value is
truthy, otherwise extract afresh. -/
def extract_video_url_c (extractor : String → Option ExtractInfo) (now : Nat)
    (cache : Cache) (youtube_id : String) : Option String × Cache × Nat :=
  if optTruthy (get_cached_url now cache youtube_id).1 then
    ((get_cached_url now cache youtube_id).1, (get_cached_url now cache youtube_id).2, 0)
  else
    extract_fresh extractor now (get_cached_url now cache youtube_id).2 youtube_id

/-- `extract_video_url` as the caller sees it: result and new cache. -/
def extract_video_url (extractor : String → Option ExtractInfo) (now : Nat)
    (cache : Cache) (youtube_id : String) : Option String × Cache :=
  ((extract_video_url_c extractor now cache youtube_id).1,
   (extract_video_url_c extractor now cache youtube_id).2.1)

/-! ## Stream endpoint (`video.py`, `get_stream`, lines 174-259) -/

/-- The fields of a stored video document the stream path reads
(`backend/app/models/video.py`): the hidden upstream id and the active
flag.  `Video.find_by_id` does not filter on `is_active`; only the
dashboard listing (`find_active_paginated`) does. -/
structure VideoRec where
  youtube_id : String
  is_active : Bool
  deriving DecidableEq

/-- The upstream reply to `requests.get(video_url, headers=...)`,
restricted to what the relay reads. -/
structure UpstreamResp where
  status : Nat
  contentType : Option String
  contentLength : Option String
  contentRange : Option String
  deriving DecidableEq

/-- The client-visible outcome of `get_stream`, one constructor per
`return` branch of the route. -/
inductive StreamResult where
  /-- 400 `'Playback token is required'` -/
  | authMissing
  /-- 401 `'Invalid or expired playback token'` -/
  | authInvalid
  /-- 403 `'Token does not match video'` -/
  | forbidden
  /-- 404 `'Video not found'` -/
  | notFound
  /-- 500 `'Failed to extract video stream'` -/
  | extractionFailed
  /-- 500 `'Streaming failed'` -/
  | streamFailed
  /-- A streamed body with the computed status and response headers. -/
  | ok (status : Nat) (contentType : String)
      (contentLength : Option String) (contentRange : Option String)
  deriving DecidableEq

/-- The HTTP status of each branch, as returned by the route. -/
def statusOf : StreamResult → Nat
  | .authMissing => 400
  | .authInvalid => 401
  | .forbidden => 403
  | .notFound => 404
  | .extractionFailed => 500
  | .streamFailed => 500
  | .ok s _ _ _ => s

/-- How many times the handler touched each external collaborator. -/
structure Effects where
  storeLookups : Nat
  extractorCalls : Nat
  upstreamFetches : Nat
  deriving DecidableEq

/-- `get_stream` (video.py:174): token presence check, playback-token
verification, token/resource match, store lookup, URL extraction through
the cache, upstream fetch with the client's `Range` header forwarded when
present, and the status/header mapping of lines 232-255.  `store` is
`Video.find_by_id`, `upstream url range` the `requests.get` oracle
(`none` models a raised exception → 500 `'Streaming failed'`). -/
def get_stream (store : String → Option VideoRec)
    (extractor : String → Option ExtractInfo)
    (upstream : String → Option String → Option UpstreamResp)
    (now : Nat) (cache : Cache)
    (video_id : String) (token : Option Token) (range_header : Option String) :
    StreamResult × Cache × Effects :=
  match token with
  | none => (.authMissing, cache, ⟨0, 0, 0⟩)
  | some t =>
    match decode_playback_token now t with
    | none => (.authInvalid, cache, ⟨0, 0, 0⟩)
    | some payload =>
      if payload.video_id ≠ some video_id then (.forbidden, cache, ⟨0, 0, 0⟩)
      else
        match store video_id with
        | none => (.notFound, cache, ⟨1, 0, 0⟩)
        | some video =>
          match extract_video_url_c extractor now cache video.youtube_id with
          | (none, c1, n) => (.extractionFailed, c1, ⟨1, n, 0⟩)
          | (some video_url, c1, n) =>
            match upstream video_url range_header with
            | none => (.streamFailed, c1, ⟨1, n, 1⟩)
            | some resp =>
              (.ok (if range_header.isSome && resp.status == 206 then 206 else 200)
                   (resp.contentType.getD "video/mp4")
                   resp.contentLength resp.contentRange,
               c1, ⟨1, n, 1⟩)

/-! ## Refresh rotation (`backend/app/routes/auth.py`, `refresh_tokens`,
lines 136-183) -/

/-- The outcome of the `/refresh` route, one constructor per `return`. -/
inductive RefreshResult where
  /-- 400 `'Refresh token is required'` -/
  | missingToken
  /-- 401 `'Invalid or expired refresh token'` -/
  | invalidToken
  /-- 401 `'User not found'` -/
  | userNotFound
  /-- 200 with the fresh pair. -/
  | ok (access_token refresh_token : Token)
  deriving DecidableEq

/-- The HTTP status of each `/refresh` branch. -/
def refreshStatus : RefreshResult → Nat
  | .missingToken => 400
  | .invalidToken => 401
  | .userNotFound => 401
  | .ok _ _ => 200

/-- `refresh_tokens` (auth.py:136): decode the presented refresh token,
re-check that the subject user still exists (`User.find_by_id`, modelled
by the `userExists` oracle; `str(user._id)` round-trips to the token's
`user_id`), and issue a fresh pair. -/
def refresh_tokens (userExists : String → Bool) (now : Nat)
    (body : Option Token) : RefreshResult :=
  match body with
  | none => .missingToken
  | some tok =>
    match decode_refresh_token now tok with
    | none => .invalidToken
    | some payload =>
      if userExists payload.user_id then
        .ok (generate_access_token now payload.user_id)
            (generate_refresh_token now payload.user_id)
      else .userNotFound

/-! ## Helper lemmas -/

theorem lookup_cacheDel_self (c : Cache) (k : String) :
    (cacheDel c k).lookup k = none := by
  induction c with
  | nil => rfl
  | cons e t ih =>
    unfold cacheDel at *
    by_cases he : e.1 = k
    · simpa [List.filter_cons, he] using ih
    · simpa [List.filter_cons, he, List.lookup_cons, Ne.symm he] using ih

theorem extract_fresh_calls (extractor : String → Option ExtractInfo)
    (now : Nat) (cache : Cache) (yid : String) :
    (extract_fresh extractor now cache yid).2.2 = 1 := by
  unfold extract_fresh
  split
  · rfl
  · split
    · split <;> rfl
    · rfl

theorem extract_after_cache_hit (extractor : String → Option ExtractInfo)
    (t1 t2 : Nat) (c : Cache) (yid url : String)
    (hne : url ≠ "")
    (hlk : c.lookup yid = some (url, t1))
    (h12 : t2 - t1 < CACHE_DURATION) :
    extract_video_url_c extractor t2 c yid = (some url, c, 0) := by
  have hg : get_cached_url t2 c yid = (some url, c) := by
    unfold get_cached_url
    rw [hlk]
    simp [h12]
  unfold extract_video_url_c
  rw [hg]
  simp [optTruthy, hne]

theorem extract_stale_calls (extractor : String → Option ExtractInfo)
    (t1 t3 : Nat) (c : Cache) (yid url : String)
    (hlk : c.lookup yid = some (url, t1))
    (hst : ¬(t3 - t1 < CACHE_DURATION)) :
    (extract_video_url_c extractor t3 c yid).2.2 = 1 := by
  have hg : get_cached_url t3 c yid = (none, cacheDel c yid) := by
    unfold get_cached_url
    rw [hlk]
    simp [hst]
  unfold extract_video_url_c
  rw [hg]
  simp [optTruthy, extract_fresh_calls]

theorem get_cached_url_miss_lookup (now : Nat) (c : Cache) (yid : String)
    (h : (get_cached_url now c yid).1 = none) :
    ((get_cached_url now c yid).2).lookup yid = none := by
  unfold get_cached_url at *
  cases hl : c.lookup yid with
  | none => simp [hl]
  | some p =>
    obtain ⟨u, ts⟩ := p
    by_cases hfresh : now - ts < CACHE_DURATION
    · simp [hl, hfresh] at h
    · simp [hl, hfresh, lookup_cacheDel_self]

theorem extract_fresh_base (extractor : String → Option ExtractInfo)
    (now : Nat) (c : Cache) (yid : String)
    (hmiss : (get_cached_url now c yid).1 = none) :
    extract_video_url_c extractor now c yid
      = extract_fresh extractor now (get_cached_url now c yid).2 yid := by
  unfold extract_video_url_c
  rw [hmiss]
  simp [optTruthy]

theorem get_stream_after_auth (store : String → Option VideoRec)
    (extractor : String → Option ExtractInfo)
    (upstream : String → Option String → Option UpstreamResp)
    (now : Nat) (cache : Cache) (mid : String) (t : Token)
    (range : Option String) (p : JwtPayload)
    (hdec : decode_playback_token now t = some p)
    (hvid : p.video_id = some mid) :
    get_stream store extractor upstream now cache mid (some t) range
      = match store mid with
        | none => (.notFound, cache, ⟨1, 0, 0⟩)
        | some video =>
          match extract_video_url_c extractor now cache video.youtube_id with
          | (none, c1, n) => (.extractionFailed, c1, ⟨1, n, 0⟩)
          | (some video_url, c1, n) =>
            match upstream video_url range with
            | none => (.streamFailed, c1, ⟨1, n, 1⟩)
            | some resp =>
              (.ok (if range.isSome && resp.status == 206 then 206 else 200)
                   (resp.contentType.getD "video/mp4")
                   resp.contentLength resp.contentRange,
               c1, ⟨1, n, 1⟩) := by
  simp [get_stream, hdec, hvid]

/-! ## Claims -/

/-- C1: Cross-tier rejection — for every pair of distinct tiers A ≠ B and
every user id, a token issued by tier A's generate function never decodes
under tier B's decode function, at any pair of issue/verify times, even
though it is correctly signed for tier A. -/
theorem cross_tier_rejection (A B : Tier) (hAB : A ≠ B)
    (now now2 : Nat) (u vid : String) :
    verifyToken B now2 (issueToken A now u vid) = none := by
  cases A <;> cases B <;> first | exact absurd rfl hAB | rfl

/-- C1 witness: an Access token presented where a Playback token is
expected is rejected. -/
theorem cross_tier_rejection_witness :
    verifyToken .playback 0 (issueToken .access 0 "u" "v") = none :=
  cross_tier_rejection .access .playback (by decide) 0 0 "u" "v"

/-- C5: Issue/verify round-trip with expiry — for every tier, decoding a
token immediately after issuance returns its claim set, and decoding at
any time from `expires_at` (= issuance + the tier's fixed lifetime)
onwards fails. -/
theorem issue_verify_roundtrip_expiry (tier : Tier) (now t : Nat) (u vid : String) :
    verifyToken tier now (issueToken tier now u vid)
      = some (issueToken tier now u vid).payload ∧
    (now + tierLifetime tier ≤ t → verifyToken tier t (issueToken tier now u vid) = none) := by
  cases tier <;>
    refine ⟨?_, fun h => ?_⟩ <;>
    simp_all [verifyToken, issueToken, generate_access_token, generate_refresh_token,
      generate_playback_token, generate_internal_token, decode_access_token,
      decode_refresh_token, decode_playback_token, decode_internal_token,
      jwtEncode, jwtDecodeTyped, tierLifetime, JWT_ACCESS_TOKEN_EXPIRES,
      REFRESH_TOKEN_EXPIRES, PLAYBACK_TOKEN_EXPIRES, INTERNAL_TOKEN_EXPIRES]

/-- C5 witness: an Access token issued at time 5 verifies at time 5 and
fails at time 905 = 5 + 900 (the access lifetime). -/
theorem issue_verify_roundtrip_expiry_witness :
    verifyToken .access 5 (issueToken .access 5 "u" "v")
      = some (issueToken .access 5 "u" "v").payload ∧
    verifyToken .access 905 (issueToken .access 5 "u" "v") = none :=
  ⟨(issue_verify_roundtrip_expiry .access 5 905 "u" "v").1,
   (issue_verify_roundtrip_expiry .access 5 905 "u" "v").2 (by decide)⟩

/-- C3: Locator-cache staleness invariant — a read returns a URL only if
the entry exists and its age `now - resolved_at` is < 300 s (and then the
cache is unchanged); a present entry whose age is ≥ 300 s is never
returned: the read deletes it and reports a miss. -/
theorem cache_staleness_invariant (now : Nat) (c : Cache) (yid : String) :
    (∀ url c2, get_cached_url now c yid = (some url, c2) →
       ∃ ts, c.lookup yid = some (url, ts) ∧ now - ts < CACHE_DURATION ∧ c2 = c) ∧
    (∀ url ts, c.lookup yid = some (url, ts) → CACHE_DURATION ≤ now - ts →
       get_cached_url now c yid = (none, cacheDel c yid)) := by
  constructor
  · intro url c2 h
    unfold get_cached_url at h
    split at h
    · next u0 ts hl =>
      split at h
      · next hfresh =>
        obtain ⟨h1, h2⟩ := Prod.mk.injEq .. ▸ h
        cases h1
        exact ⟨ts, hl, hfresh, h2.symm⟩
      · simp at h
    · simp at h
  · intro url ts hl hst
    have hnf : ¬(now - ts < CACHE_DURATION) := by omega
    simp [get_cached_url, hl, hnf]

/-- C3 witness: the entry `("s","A",50)` is returned at time 100 (age 50)
and evicted with a miss at time 400 (age 350). -/
theorem cache_staleness_invariant_witness :
    (∃ ts, List.lookup "s" ([("s", "A", 50)] : Cache) = some ("A", ts) ∧
       100 - ts < CACHE_DURATION ∧ ([("s", "A", 50)] : Cache) = [("s", "A", 50)]) ∧
    get_cached_url 400 [("s", "A", 50)] "s"
      = (none, cacheDel [("s", "A", 50)] "s") :=
  ⟨(cache_staleness_invariant 100 [("s", "A", 50)] "s").1 "A" [("s", "A", 50)] (by decide),
   (cache_staleness_invariant 400 [("s", "A", 50)] "s").2 "A" 50 (by decide) (by decide)⟩

/-- C6 counterexample: two resolutions of `"s"` one second apart (times
299 and 300) return different URLs — the cache entry stored at time 0
expires between them, so the first is served `"A"` from the cache and the
second re-extracts and returns `"B"`.  This refutes the claim that any two
resolutions within 300 s of each other return identical URLs with the
second served from the cache. -/
theorem cache_idempotence_cex :
    (extract_video_url_c (fun _ => some ⟨some "B", []⟩) 299 [("s", "A", 0)] "s").1
      = some "A" ∧
    (extract_video_url_c (fun _ => some ⟨some "B", []⟩) 300
        (extract_video_url_c (fun _ => some ⟨some "B", []⟩) 299 [("s", "A", 0)] "s").2.1
        "s").1 = some "B" ∧
    (300 : Nat) - 299 < 300 := by decide

/-- C6 amended: if a resolution at time t1 misses the cache and succeeds
(one extractor invocation, URL cached at t1), then a resolution within
300 s of t1 is served from the cache with zero extractor invocations and
the identical URL; a resolution at t3 ≥ t1 + 300 invokes the extractor
again. -/
theorem cache_idempotence_amended (extractor : String → Option ExtractInfo)
    (t1 t2 t3 : Nat) (c0 c1 : Cache) (yid url : String) (n1 : Nat)
    (hmiss : (get_cached_url t1 c0 yid).1 = none)
    (h1 : extract_video_url_c extractor t1 c0 yid = (some url, c1, n1))
    (h12 : t2 - t1 < CACHE_DURATION) :
    n1 = 1 ∧
    extract_video_url_c extractor t2 c1 yid = (some url, c1, 0) ∧
    (t1 + CACHE_DURATION ≤ t3 →
      (extract_video_url_c extractor t3 c1 yid).2.2 = 1) := by
  unfold extract_video_url_c at h1
  rw [hmiss] at h1
  simp only [optTruthy, Bool.false_eq_true, if_false] at h1
  unfold extract_fresh at h1
  split at h1
  · simp at h1
  · next info hext =>
    split at h1
    · next v hv =>
      split at h1
      · next hne =>
        simp only [Prod.mk.injEq, Option.some.injEq] at h1
        obtain ⟨hu, hc1, hn1⟩ := h1
        subst hu
        subst hc1
        have hne2 : v ≠ "" := by simpa using hne
        have hlk : (cache_url t1 (get_cached_url t1 c0 yid).2 yid v).lookup yid
            = some (v, t1) := by
          simp [cache_url]
        refine ⟨hn1.symm, ?_, ?_⟩
        · exact extract_after_cache_hit extractor t1 t2 _ yid v hne2 hlk h12
        · intro h3
          exact extract_stale_calls extractor t1 t3 _ yid v hlk (by omega)
      · simp at h1
    · simp at h1

/-- C6 witness: a successful miss-resolution at time 0 caching `"U"`, a
cache-served identical result at time 100, and a fresh extractor call at
time 400. -/
theorem cache_idempotence_amended_witness :
    (1 : Nat) = 1 ∧
    extract_video_url_c (fun _ => some ⟨some "U", []⟩) 100 [("s", "U", 0)] "s"
      = (some "U", [("s", "U", 0)], 0) ∧
    (0 + CACHE_DURATION ≤ 400 →
      (extract_video_url_c (fun _ => some ⟨some "U", []⟩) 400 [("s", "U", 0)] "s").2.2 = 1) :=
  cache_idempotence_amended (fun _ => some ⟨some "U", []⟩) 0 100 400 [] [("s", "U", 0)]
    "s" "U" 1 (by decide) (by decide) (by decide)

/-- C7 counterexample: a refresh token issued at second 1000 and rotated
at the same second 1000 (valid, unexpired, user exists) yields a new
refresh token identical in value to the presented one — JWT encoding is
deterministic and `iat`/`exp` are whole seconds — refuting the claim that
both returned tokens are always distinct from the originals presented. -/
theorem refresh_rotation_cex :
    refresh_tokens (fun _ => true) 1000 (some (generate_refresh_token 1000 "u1"))
      = .ok (generate_access_token 1000 "u1") (generate_refresh_token 1000 "u1") ∧
    decode_refresh_token 1000 (generate_refresh_token 1000 "u1")
      = some (generate_refresh_token 1000 "u1").payload := by decide

/-- C7 amended: for a valid, unexpired refresh token of an existing user,
rotation returns a fresh Access/Refresh pair issued at the rotation time;
the new Access token always differs from the presented refresh token, and
the new Refresh token differs whenever the rotation second differs from
the presented token's `iat`; for a deleted user (lookup fails) rotation
fails with a 401 authentication error even if the token is unexpired. -/
theorem refresh_rotation_amended (userExists : String → Bool) (now : Nat)
    (t : Token) (p : JwtPayload)
    (hdec : decode_refresh_token now t = some p) :
    (userExists p.user_id = true →
       refresh_tokens userExists now (some t)
         = .ok (generate_access_token now p.user_id) (generate_refresh_token now p.user_id) ∧
       generate_access_token now p.user_id ≠ t ∧
       (p.iat ≠ now → generate_refresh_token now p.user_id ≠ t)) ∧
    (userExists p.user_id = false →
       refresh_tokens userExists now (some t) = .userNotFound ∧
       refreshStatus .userNotFound = 401) := by
  have hfacts : p = t.payload ∧ t.payload.type = "refresh" := by
    unfold decode_refresh_token jwtDecodeTyped at hdec
    split_ifs at hdec with hsig hexp htype
    simp_all
  obtain ⟨hp, htype⟩ := hfacts
  subst hp
  constructor
  · intro hu
    refine ⟨?_, ?_, ?_⟩
    · simp [refresh_tokens, hdec, hu]
    · intro heq
      have := congrArg (fun tok => tok.payload.type) heq
      simp [generate_access_token, jwtEncode, htype] at this
    · intro hiat heq
      have := congrArg (fun tok => tok.payload.iat) heq
      simp [generate_refresh_token, jwtEncode] at this
      exact hiat this.symm
  · intro hu
    refine ⟨?_, rfl⟩
    simp [refresh_tokens, hdec, hu]

/-- C7 witness: rotating at second 2000 a refresh token issued at second
1000 returns a pair both distinct from the presented token. -/
theorem refresh_rotation_amended_witness :
    refresh_tokens (fun _ => true) 2000 (some (generate_refresh_token 1000 "u1"))
      = .ok (generate_access_token 2000 "u1") (generate_refresh_token 2000 "u1") ∧
    generate_access_token 2000 "u1" ≠ generate_refresh_token 1000 "u1" ∧
    generate_refresh_token 2000 "u1" ≠ generate_refresh_token 1000 "u1" := by
  have h := (refresh_rotation_amended (fun _ => true) 2000 (generate_refresh_token 1000 "u1")
      (generate_refresh_token 1000 "u1").payload (by decide)).1 rfl
  exact ⟨h.1, h.2.1, h.2.2 (by decide)⟩

/-- C9: Format-fallback scan order — when the cache misses, the extractor
returns an info whose top-level URL is falsy: if no format satisfies the
policy (mp4 / avc-codec / non-empty URL / non-manifest) the resolution
fails; otherwise the URL returned is that of the format `f` whenever the
list splits as `l₁ ++ f :: l₂` with `f` acceptable and everything after it
(scanned first in reverse order) unacceptable. -/
theorem format_fallback_scan (extractor : String → Option ExtractInfo) (now : Nat)
    (c : Cache) (yid : String) (info : ExtractInfo)
    (hmiss : (get_cached_url now c yid).1 = none)
    (hext : extractor yid = some info)
    (hnp : optTruthy info.url = false) :
    ((∀ f ∈ info.formats, formatOk f = false) →
        (extract_video_url_c extractor now c yid).1 = none) ∧
    (∀ l₁ f l₂, info.formats = l₁ ++ f :: l₂ → formatOk f = true →
        (∀ g ∈ l₂, formatOk g = false) →
        (extract_video_url_c extractor now c yid).1 = f.url) := by
  rw [extract_fresh_base extractor now c yid hmiss]
  constructor
  · intro hall
    have hfind : info.formats.reverse.find? formatOk = none := by
      rw [List.find?_eq_none]
      intro x hx
      rw [List.mem_reverse] at hx
      simp [hall x hx]
    unfold extract_fresh
    rw [hext]
    simp [hnp, hfind]
  · intro l₁ f l₂ hsplit hf hl₂
    have hfind : info.formats.reverse.find? formatOk = some f := by
      rw [hsplit, List.reverse_append, List.reverse_cons, List.append_assoc,
        List.find?_append]
      have h2 : l₂.reverse.find? formatOk = none := by
        rw [List.find?_eq_none]
        intro x hx
        rw [List.mem_reverse] at hx
        simp [hl₂ x hx]
      rw [h2]
      simp [List.find?_append, List.find?_cons_of_pos _ hf]
    obtain ⟨v, hv, hvne⟩ : ∃ v, f.url = some v ∧ v ≠ "" := by
      have := hf
      unfold formatOk at this
      simp only [Bool.and_eq_true] at this
      obtain ⟨⟨⟨_, hurl⟩, _⟩, _⟩ := this
      cases hu : f.url with
      | none => rw [hu] at hurl; simp [optTruthy] at hurl
      | some v =>
        rw [hu] at hurl
        simp [optTruthy] at hurl
        exact ⟨v, rfl, hurl⟩
    unfold extract_fresh
    rw [hext]
    simp [hnp, hfind, hv, hvne]

/-- C9 witness: with no top-level URL and formats [webm, good mp4,
manifest mp4], the reverse scan skips the manifest entry and returns the
good mp4's URL. -/
theorem format_fallback_scan_witness :
    (extract_video_url_c
        (fun _ => some ⟨none,
          [⟨"webm", some "u1", some "avc1"⟩,
           ⟨"mp4", some "http://x/video.mp4", some "avc1.640028"⟩,
           ⟨"mp4", some "http://x/manifest.mpd", some "avc1"⟩]⟩)
        0 [] "s").1
      = some "http://x/video.mp4" :=
  (format_fallback_scan
      (fun _ => some ⟨none,
        [⟨"webm", some "u1", some "avc1"⟩,
         ⟨"mp4", some "http://x/video.mp4", some "avc1.640028"⟩,
         ⟨"mp4", some "http://x/manifest.mpd", some "avc1"⟩]⟩)
      0 [] "s"
      ⟨none,
        [⟨"webm", some "u1", some "avc1"⟩,
         ⟨"mp4", some "http://x/video.mp4", some "avc1.640028"⟩,
         ⟨"mp4", some "http://x/manifest.mpd", some "avc1"⟩]⟩
      (by decide) (by decide) (by decide)).2
    [⟨"webm", some "u1", some "avc1"⟩]
    ⟨"mp4", some "http://x/video.mp4", some "avc1.640028"⟩
    [⟨"mp4", some "http://x/manifest.mpd", some "avc1"⟩]
    rfl (by decide) (by decide)

/-- C2: Playback-token/resource binding — a playback token that decodes
but whose `video_id` differs from the requested media id is rejected with
the distinct Forbidden outcome (HTTP 403, no side effects); a decoded
token whose `video_id` matches is never rejected as missing/invalid/
forbidden; and the request is served (an `ok` stream) only if the token
decodes and its `video_id` equals the media id. -/
theorem playback_resource_binding (store : String → Option VideoRec)
    (extractor : String → Option ExtractInfo)
    (upstream : String → Option String → Option UpstreamResp)
    (now : Nat) (cache : Cache) (mid : String) (t : Token) (range : Option String) :
    (∀ p, decode_playback_token now t = some p → p.video_id ≠ some mid →
       get_stream store extractor upstream now cache mid (some t) range
         = (.forbidden, cache, ⟨0, 0, 0⟩) ∧ statusOf .forbidden = 403) ∧
    (∀ p, decode_playback_token now t = some p → p.video_id = some mid →
       (get_stream store extractor upstream now cache mid (some t) range).1 ≠ .authMissing ∧
       (get_stream store extractor upstream now cache mid (some t) range).1 ≠ .authInvalid ∧
       (get_stream store extractor upstream now cache mid (some t) range).1 ≠ .forbidden) ∧
    (∀ s ct cl cr,
       (get_stream store extractor upstream now cache mid (some t) range).1 = .ok s ct cl cr →
       ∃ p, decode_playback_token now t = some p ∧ p.video_id = some mid) := by
  refine ⟨?_, ?_, ?_⟩
  · intro p hdec hne
    exact ⟨by simp [get_stream, hdec, hne], rfl⟩
  · intro p hdec hvid
    rw [get_stream_after_auth store extractor upstream now cache mid t range p hdec hvid]
    rcases hs : store mid with _ | v
    · simp
    · rcases hx : extract_video_url_c extractor now cache v.youtube_id with ⟨o, c1, n⟩
      rcases o with _ | u
      · simp [hx]
      · rcases hu : upstream u range with _ | resp
        · simp [hx, hu]
        · simp [hx, hu]
  · intro s ct cl cr hok
    cases hdec : decode_playback_token now t with
    | none => simp [get_stream, hdec] at hok
    | some p =>
      by_cases hvid : p.video_id = some mid
      · exact ⟨p, rfl, hvid⟩
      · simp [get_stream, hdec, hvid] at hok

/-- C2 witness: a playback token for "V1" is Forbidden (403) for
`media_id = "V2"` and passes the token checks for `media_id = "V1"`. -/
theorem playback_resource_binding_witness :
    (get_stream (fun _ => none) (fun _ => none) (fun _ _ => none) 10 [] "V2"
        (some (generate_playback_token 0 "V1" "u")) none
      = (.forbidden, [], ⟨0, 0, 0⟩) ∧ statusOf .forbidden = 403) ∧
    ((get_stream (fun _ => none) (fun _ => none) (fun _ _ => none) 10 [] "V1"
        (some (generate_playback_token 0 "V1" "u")) none).1 ≠ .authMissing ∧
     (get_stream (fun _ => none) (fun _ => none) (fun _ _ => none) 10 [] "V1"
        (some (generate_playback_token 0 "V1" "u")) none).1 ≠ .authInvalid ∧
     (get_stream (fun _ => none) (fun _ => none) (fun _ _ => none) 10 [] "V1"
        (some (generate_playback_token 0 "V1" "u")) none).1 ≠ .forbidden) :=
  ⟨(playback_resource_binding (fun _ => none) (fun _ => none) (fun _ _ => none) 10 [] "V2"
      (generate_playback_token 0 "V1" "u") none).1
      (generate_playback_token 0 "V1" "u").payload (by decide) (by decide),
   (playback_resource_binding (fun _ => none) (fun _ => none) (fun _ _ => none) 10 [] "V1"
      (generate_playback_token 0 "V1" "u") none).2.1
      (generate_playback_token 0 "V1" "u").payload (by decide) (by decide)⟩

/-- C4: Range-status mapping — when the pipeline reaches the upstream
fetch, the client-visible status is 206 iff the client sent a Range
header AND the upstream replied 206, and 200 otherwise; the upstream's
`Content-Range` and `Content-Length` are propagated as-is and the
`Content-Type` defaults to `video/mp4`. -/
theorem range_status_mapping (store : String → Option VideoRec)
    (extractor : String → Option ExtractInfo)
    (upstream : String → Option String → Option UpstreamResp)
    (now : Nat) (cache : Cache) (mid : String) (t : Token) (range : Option String)
    (p : JwtPayload) (v : VideoRec) (url : String) (c1 : Cache) (n : Nat)
    (resp : UpstreamResp)
    (hdec : decode_playback_token now t = some p)
    (hvid : p.video_id = some mid)
    (hstore : store mid = some v)
    (hex : extract_video_url_c extractor now cache v.youtube_id = (some url, c1, n))
    (hup : upstream url range = some resp) :
    get_stream store extractor upstream now cache mid (some t) range
      = (.ok (if range.isSome && resp.status == 206 then 206 else 200)
             (resp.contentType.getD "video/mp4") resp.contentLength resp.contentRange,
         c1, ⟨1, n, 1⟩) ∧
    ((if range.isSome && resp.status == 206 then 206 else 200) = 206 ↔
       range.isSome = true ∧ resp.status = 206) := by
  constructor
  · rw [get_stream_after_auth store extractor upstream now cache mid t range p hdec hvid]
    simp [hstore, hex, hup]
  · by_cases hr : range.isSome <;> by_cases h206 : resp.status = 206 <;>
      simp [hr, h206]

/-- C4 witness: `Range: bytes=0-999` against an upstream replying 206 with
`Content-Range: bytes 0-999/5000` yields a client 206 with the same
Content-Range. -/
theorem range_status_mapping_witness :
    get_stream (fun m => if m = "V1" then some ⟨"yt1", true⟩ else none)
        (fun _ => some ⟨some "http://u", []⟩)
        (fun _ _ => some ⟨206, some "video/mp4", some "1000", some "bytes 0-999/5000"⟩)
        10 [] "V1" (some (generate_playback_token 0 "V1" "u")) (some "bytes=0-999")
      = (.ok 206 "video/mp4" (some "1000") (some "bytes 0-999/5000"),
         [("yt1", "http://u", 10)], ⟨1, 1, 1⟩) ∧
    ((206 : Nat) = 206 ↔
      (some "bytes=0-999").isSome = true ∧ (206 : Nat) = 206) :=
  range_status_mapping (fun m => if m = "V1" then some ⟨"yt1", true⟩ else none)
    (fun _ => some ⟨some "http://u", []⟩)
    (fun _ _ => some ⟨206, some "video/mp4", some "1000", some "bytes 0-999/5000"⟩)
    10 [] "V1" (generate_playback_token 0 "V1" "u") (some "bytes=0-999")
    (generate_playback_token 0 "V1" "u").payload ⟨"yt1", true⟩ "http://u"
    [("yt1", "http://u", 10)] 1
    ⟨206, some "video/mp4", some "1000", some "bytes 0-999/5000"⟩
    (by decide) (by decide) (by decide) (by decide) (by decide)

/-- C8: Error mapping at the stream endpoint — a missing token yields the
authMissing rejection and an undecodable token the authInvalid rejection,
both with zero store lookups, extractor calls and upstream fetches; a
valid matching token for a media id absent from the store yields notFound
with no extraction; and when the extractor reports no URL and no
compatible format, the request fails as extractionFailed with no cache
entry left for that source identifier. -/
theorem stream_error_mapping (store : String → Option VideoRec)
    (extractor : String → Option ExtractInfo)
    (upstream : String → Option String → Option UpstreamResp)
    (now : Nat) (cache : Cache) (mid : String) (range : Option String) :
    (get_stream store extractor upstream now cache mid none range
       = (.authMissing, cache, ⟨0, 0, 0⟩)) ∧
    (∀ t, decode_playback_token now t = none →
       get_stream store extractor upstream now cache mid (some t) range
         = (.authInvalid, cache, ⟨0, 0, 0⟩)) ∧
    (∀ t p, decode_playback_token now t = some p → p.video_id = some mid →
       store mid = none →
       get_stream store extractor upstream now cache mid (some t) range
         = (.notFound, cache, ⟨1, 0, 0⟩)) ∧
    (∀ t p v info, decode_playback_token now t = some p → p.video_id = some mid →
       store mid = some v →
       (get_cached_url now cache v.youtube_id).1 = none →
       extractor v.youtube_id = some info →
       optTruthy info.url = false →
       (∀ f ∈ info.formats, formatOk f = false) →
       (get_stream store extractor upstream now cache mid (some t) range).1
         = .extractionFailed ∧
       ((get_stream store extractor upstream now cache mid (some t) range).2.1).lookup
           v.youtube_id = none) := by
  refine ⟨rfl, ?_, ?_, ?_⟩
  · intro t hdec
    simp [get_stream, hdec]
  · intro t p hdec hvid hstore
    rw [get_stream_after_auth store extractor upstream now cache mid t range p hdec hvid]
    simp [hstore]
  · intro t p v info hdec hvid hstore hmiss hext hnp hall
    have hfind : info.formats.reverse.find? formatOk = none := by
      rw [List.find?_eq_none]
      intro x hx
      rw [List.mem_reverse] at hx
      simp [hall x hx]
    have hex : extract_video_url_c extractor now cache v.youtube_id
        = (none, (get_cached_url now cache v.youtube_id).2, 1) := by
      rw [extract_fresh_base extractor now cache v.youtube_id hmiss]
      unfold extract_fresh
      rw [hext]
      simp [hnp, hfind]
    rw [get_stream_after_auth store extractor upstream now cache mid t range p hdec hvid]
    simp [hstore, hex, get_cached_url_miss_lookup now cache v.youtube_id hmiss]

/-- C8 witness: missing token → authMissing; wrong-signature token →
authInvalid; valid token for absent "V0" → notFound; extractor with no
compatible format for "V1" → extractionFailed with no cache entry for
"yt1". -/
theorem stream_error_mapping_witness :
    (get_stream (fun m => if m = "V1" then some ⟨"yt1", true⟩ else none)
        (fun _ => some ⟨none, []⟩) (fun _ _ => none) 10 [] "V0" none none
      = (.authMissing, [], ⟨0, 0, 0⟩)) ∧
    (get_stream (fun m => if m = "V1" then some ⟨"yt1", true⟩ else none)
        (fun _ => some ⟨none, []⟩) (fun _ _ => none) 10 [] "V0"
        (some ⟨⟨"u", none, 99999, 0, "playback"⟩, "bad"⟩) none
      = (.authInvalid, [], ⟨0, 0, 0⟩)) ∧
    (get_stream (fun m => if m = "V1" then some ⟨"yt1", true⟩ else none)
        (fun _ => some ⟨none, []⟩) (fun _ _ => none) 10 [] "V0"
        (some (generate_playback_token 0 "V0" "u")) none
      = (.notFound, [], ⟨1, 0, 0⟩)) ∧
    ((get_stream (fun m => if m = "V1" then some ⟨"yt1", true⟩ else none)
        (fun _ => some ⟨none, []⟩) (fun _ _ => none) 10 [] "V1"
        (some (generate_playback_token 0 "V1" "u")) none).1 = .extractionFailed ∧
     ((get_stream (fun m => if m = "V1" then some ⟨"yt1", true⟩ else none)
        (fun _ => some ⟨none, []⟩) (fun _ _ => none) 10 [] "V1"
        (some (generate_playback_token 0 "V1" "u")) none).2.1).lookup "yt1" = none) :=
  ⟨(stream_error_mapping (fun m => if m = "V1" then some ⟨"yt1", true⟩ else none)
      (fun _ => some ⟨none, []⟩) (fun _ _ => none) 10 [] "V0" none).1,
   (stream_error_mapping (fun m => if m = "V1" then some ⟨"yt1", true⟩ else none)
      (fun _ => some ⟨none, []⟩) (fun _ _ => none) 10 [] "V0" none).2.1
     ⟨⟨"u", none, 99999, 0, "playback"⟩, "bad"⟩ (by decide),
   (stream_error_mapping (fun m => if m = "V1" then some ⟨"yt1", true⟩ else none)
      (fun _ => some ⟨none, []⟩) (fun _ _ => none) 10 [] "V0" none).2.2.1
     (generate_playback_token 0 "V0" "u")
     (generate_playback_token 0 "V0" "u").payload (by decide) (by decide) (by decide),
   (stream_error_mapping (fun m => if m = "V1" then some ⟨"yt1", true⟩ else none)
      (fun _ => some ⟨none, []⟩) (fun _ _ => none) 10 [] "V1" none).2.2.2
     (generate_playback_token 0 "V1" "u")
     (generate_playback_token 0 "V1" "u").payload ⟨"yt1", true⟩ ⟨none, []⟩
     (by decide) (by decide) (by decide) (by decide) (by decide) (by decide) (by decide)⟩

/-- C10: the stream path never consults `is_active` — two stores that
agree on which media ids exist and on their `youtube_id` (but may differ
arbitrarily on `is_active`) produce identical stream responses for every
request. -/
theorem stream_ignores_is_active (store1 store2 : String → Option VideoRec)
    (h : ∀ m, (store1 m).map VideoRec.youtube_id = (store2 m).map VideoRec.youtube_id)
    (extractor : String → Option ExtractInfo)
    (upstream : String → Option String → Option UpstreamResp)
    (now : Nat) (cache : Cache) (mid : String) (token : Option Token)
    (range : Option String) :
    get_stream store1 extractor upstream now cache mid token range
      = get_stream store2 extractor upstream now cache mid token range := by
  cases token with
  | none => rfl
  | some t =>
    cases hdec : decode_playback_token now t with
    | none => simp [get_stream, hdec]
    | some p =>
      by_cases hvid : p.video_id = some mid
      · have h2 := h mid
        cases hs1 : store1 mid with
        | none =>
          cases hs2 : store2 mid with
          | none => simp [get_stream, hdec, hs1, hs2]
          | some v2 =>
            rw [hs1, hs2] at h2
            simp at h2
        | some v1 =>
          cases hs2 : store2 mid with
          | none =>
            rw [hs1, hs2] at h2
            simp at h2
          | some v2 =>
            rw [hs1, hs2] at h2
            simp only [Option.map_some', Option.some.injEq] at h2
            simp [get_stream, hdec, hs1, hs2, h2]
      · simp [get_stream, hdec, hvid]

/-- C10 witness: a valid playback request for "V1" streams identically
whether the stored record has `is_active = true` or `is_active = false`. -/
theorem stream_ignores_is_active_witness :
    get_stream (fun m => if m = "V1" then some ⟨"yt1", true⟩ else none)
        (fun _ => none) (fun _ _ => none) 10 [] "V1"
        (some (generate_playback_token 0 "V1" "u")) none
      = get_stream (fun m => if m = "V1" then some ⟨"yt1", false⟩ else none)
          (fun _ => none) (fun _ _ => none) 10 [] "V1"
          (some (generate_playback_token 0 "V1" "u")) none :=
  stream_ignores_is_active (fun m => if m = "V1" then some ⟨"yt1", true⟩ else none)
    (fun m => if m = "V1" then some ⟨"yt1", false⟩ else none)
    (by intro m; by_cases h : m = "V1" <;> simp [h])
    (fun _ => none) (fun _ _ => none) 10 [] "V1"
    (some (generate_playback_token 0 "V1" "u")) none

end StreamCore
